import Mathlib

/-!
Shallow embedding of the content-safety pipeline's core services
(`AutomatedResponseService` and `TrendAnalysisService`) and proofs of the
specification's claims about them.

Conventions of the embedding:
* JavaScript numbers are modelled as `ℚ` (all arithmetic here is exact
  decimal arithmetic; no NaN arises in the modelled code paths).
* JavaScript `Date` values are modelled as epoch milliseconds (`ℤ`),
  matching `Date.prototype.getTime` / `Date.now`.
* Optional fields (`min?`, `views?`, …) are modelled as `Option`.
* JavaScript truthiness of a number (`if (x)`, `x && …`) is `x ≠ 0`.
* The string key `` `${action.type}_${action.severity}` `` used by
  `consolidateActions` is modelled as the pair `(type, severity)`; the
  string encoding is injective on the two enums (neither enum value
  contains an underscore), so the pair is an equivalent key.
* Redis side effects are modelled as an explicit effect list.
-/

/-- `ResponseAction.type` in `AutomatedResponseService.ts`. -/
inductive ActionType where
  | flag | remove | escalate | warn | quarantine | notify
deriving DecidableEq, Repr

/-- The four severity levels of a `ResponseAction`. -/
inductive Severity where
  | low | medium | high | critical
deriving DecidableEq, Repr

/-- Urgency tiers returned by `determineUrgency`. -/
inductive Urgency where
  | low | medium | high | critical
deriving DecidableEq, Repr

/-- `TrendData.riskLevel` tiers. -/
inductive RiskLevel where
  | low | medium | high | critical
deriving DecidableEq, Repr

/-- `ResponseAction` (the optional free-form `metadata` record, which no
modelled code path reads, is omitted). -/
structure ResponseAction where
  type : ActionType
  severity : Severity
  automated : Bool
  reason : String
deriving DecidableEq, Repr

/-- `DetectionResult` from `ContentDetectionService.ts` (free-form
`metadata` omitted). -/
structure DetectionResult where
  harmfulnessScore : ℚ
  categories : List String
  confidence : ℚ
  reasoning : String
  flagged : Bool
deriving DecidableEq, Repr

/-- `Content.engagement`: `views` is optional in the `IContent` schema. -/
structure Engagement where
  likes : ℚ
  shares : ℚ
  comments : ℚ
  views : Option ℚ
deriving DecidableEq, Repr

/-- The fields of an `IContent` document read by the response service. -/
structure ContentItem where
  platform : String
  engagement : Engagement
deriving DecidableEq, Repr

/-- `conditions.harmfulnessScore`: an optional `{min?, max?}` range. -/
structure ScoreRange where
  min : Option ℚ
  max : Option ℚ
deriving DecidableEq, Repr

/-- `conditions.confidence`: an optional `{min?}` floor. -/
structure ConfidenceCond where
  min : Option ℚ
deriving DecidableEq, Repr

/-- `EscalationRule.conditions`. -/
structure RuleConditions where
  harmfulnessScore : Option ScoreRange
  categories : Option (List String)
  platforms : Option (List String)
  confidence : Option ConfidenceCond
  viralityIndicators : Option Bool
deriving DecidableEq, Repr

/-- `EscalationRule`. -/
structure EscalationRule where
  id : String
  name : String
  conditions : RuleConditions
  actions : List ResponseAction
  priority : ℤ
  enabled : Bool
deriving DecidableEq, Repr

/-- JavaScript truthiness of a number: `0` is falsy, everything else truthy
(no NaN in the exact-arithmetic model). -/
def numTruthy (q : ℚ) : Bool := q ≠ 0

/-- `checkViralityIndicators` (AutomatedResponseService.ts:405-412).
The JS expression `content.engagement.views && content.engagement.views > 10000`
is `undefined`/`0` (falsy) when `views` is absent or `0`. -/
def checkViralityIndicators (content : ContentItem) : Bool :=
  let totalEngagement :=
    content.engagement.likes + content.engagement.shares + content.engagement.comments
  let viralThreshold : ℚ := 1000
  decide (totalEngagement > viralThreshold) ||
    decide (content.engagement.shares > 100) ||
    (match content.engagement.views with
     | none => false
     | some v => numTruthy v && decide (v > 10000))

/-- The filter body of `findApplicableRules` (AutomatedResponseService.ts:176-213),
with each early `return false` rendered as a conjunct.  Note that the JS code
guards each numeric bound with truthiness (`conditions.harmfulnessScore.min && …`),
so a bound whose value is `0` is skipped. -/
def ruleMatches (detectionResult : DetectionResult) (content : ContentItem)
    (rule : EscalationRule) : Bool :=
  rule.enabled &&
  (match rule.conditions.harmfulnessScore with
   | none => true
   | some hs =>
     (match hs.min with
      | none => true
      | some m => !(numTruthy m && decide (detectionResult.harmfulnessScore < m))) &&
     (match hs.max with
      | none => true
      | some m => !(numTruthy m && decide (detectionResult.harmfulnessScore > m)))) &&
  (match rule.conditions.confidence with
   | none => true
   | some c =>
     match c.min with
     | none => true
     | some m => !(numTruthy m && decide (detectionResult.confidence < m))) &&
  (match rule.conditions.categories with
   | none => true
   | some cats =>
     if cats.length > 0 then
       cats.any (fun cat => detectionResult.categories.contains cat)
     else true) &&
  (match rule.conditions.platforms with
   | none => true
   | some ps =>
     if ps.length > 0 then ps.contains content.platform else true) &&
  (match rule.conditions.viralityIndicators with
   | none => true
   | some vi => if vi then checkViralityIndicators content else true)

/-- The descending-priority order used by
`.sort((a, b) => b.priority - a.priority)` on rules. -/
def ruleGE (a b : EscalationRule) : Prop := b.priority ≤ a.priority

instance : DecidableRel ruleGE := fun a b =>
  inferInstanceAs (Decidable (b.priority ≤ a.priority))

instance : IsTotal EscalationRule ruleGE :=
  ⟨fun a b => by unfold ruleGE; exact le_total _ _⟩

instance : IsTrans EscalationRule ruleGE :=
  ⟨fun a b c hab hbc => by unfold ruleGE at *; exact le_trans hbc hab⟩

/-- `findApplicableRules` (AutomatedResponseService.ts:176-215): filter the
rule set, then sort by descending priority (JS `Array.prototype.sort` is
stable; `List.insertionSort` with a total preorder is the same stable sort). -/
def findApplicableRules (detectionResult : DetectionResult) (content : ContentItem)
    (escalationRules : List EscalationRule) : List EscalationRule :=
  List.insertionSort ruleGE (escalationRules.filter (ruleMatches detectionResult content))

/-- The `typePriority` table inside `getActionPriority`
(AutomatedResponseService.ts:398). -/
def typePriorityOf : ActionType → ℤ
  | .remove => 5
  | .quarantine => 4
  | .escalate => 3
  | .flag => 2
  | .warn => 1
  | .notify => 1

/-- The `severityPriority` table inside `getActionPriority`
(AutomatedResponseService.ts:399). -/
def severityPriorityOf : Severity → ℤ
  | .critical => 4
  | .high => 3
  | .medium => 2
  | .low => 1

/-- `getActionPriority` (AutomatedResponseService.ts:397-403).  The `|| 1`
fallbacks in the source are dead for the six/four enum values. -/
def getActionPriority (action : ResponseAction) : ℤ :=
  typePriorityOf action.type * severityPriorityOf action.severity

/-- The key `` `${action.type}_${action.severity}` `` of the consolidation
map, as the (equivalent, injectively-encoded) pair. -/
def actionKey (action : ResponseAction) : ActionType × Severity :=
  (action.type, action.severity)

/-- `Map.get` on the insertion-ordered JS `Map`, modelled as an association
list that preserves insertion order. -/
def mapGetA (m : List ((ActionType × Severity) × ResponseAction))
    (k : ActionType × Severity) : Option ResponseAction :=
  (m.find? (fun p => decide (p.1 = k))).map (·.2)

/-- `Map.set`: replaces in place if the key is present (keeping its
position), otherwise appends. -/
def mapSetA (m : List ((ActionType × Severity) × ResponseAction))
    (k : ActionType × Severity) (v : ResponseAction) :
    List ((ActionType × Severity) × ResponseAction) :=
  if m.any (fun p => decide (p.1 = k)) then
    m.map (fun p => if p.1 = k then (k, v) else p)
  else m ++ [(k, v)]

/-- One iteration of the inner loop of `consolidateActions`
(AutomatedResponseService.ts:220-229). -/
def consolidateStep (m : List ((ActionType × Severity) × ResponseAction))
    (action : ResponseAction) : List ((ActionType × Severity) × ResponseAction) :=
  match mapGetA m (actionKey action) with
  | none => mapSetA m (actionKey action) action
  | some existing =>
    if getActionPriority existing < getActionPriority action then
      mapSetA m (actionKey action) action
    else m

/-- The descending order used by
`.sort((a, b) => getActionPriority(b) - getActionPriority(a))`. -/
def actionGE (a b : ResponseAction) : Prop :=
  getActionPriority b ≤ getActionPriority a

instance : DecidableRel actionGE := fun a b =>
  inferInstanceAs (Decidable (getActionPriority b ≤ getActionPriority a))

instance : IsTotal ResponseAction actionGE :=
  ⟨fun a b => by unfold actionGE; exact le_total _ _⟩

instance : IsTrans ResponseAction actionGE :=
  ⟨fun a b c hab hbc => by unfold actionGE at *; exact le_trans hbc hab⟩

/-- `consolidateActions` (AutomatedResponseService.ts:217-234): fold the
rules' actions into the keyed map, then sort the map's values (in key
insertion order, as `Array.from(map.values())` yields them) by descending
action priority. -/
def consolidateActions (rules : List EscalationRule) : List ResponseAction :=
  let actionMap := ((rules.map (·.actions)).flatten).foldl consolidateStep []
  List.insertionSort actionGE (actionMap.map (·.2))

/-- The high-risk category list inside `determineUrgency`
(AutomatedResponseService.ts:383). -/
def highRiskCategories : List String :=
  ["self_harm", "violence", "dangerous_challenge", "extremism"]

/-- `determineUrgency` (AutomatedResponseService.ts:380-390). -/
def determineUrgency (detectionResult : DetectionResult) : Urgency :=
  let score := detectionResult.harmfulnessScore
  let hasHighRiskCategories :=
    detectionResult.categories.any (fun cat => highRiskCategories.contains cat)
  if score ≥ 0.95 ∨ hasHighRiskCategories = true then .critical
  else if score ≥ 0.85 then .high
  else if score ≥ 0.7 then .medium
  else .low

/-- `parseFloat(process.env.AUTO_ACTION_THRESHOLD || '0.95')`: the default
auto-action threshold. -/
def defaultAutoActionThreshold : ℚ := 0.95

/-- The moderation-state fields of a content document written by the
executor, plus the escalation-lane queue contents, threaded explicitly. -/
structure ContentModState where
  flagged : Bool
  removed : Bool
  removeReason : Option String
  escalated : Bool
  escalationReason : Option String
  reviewPriority : Option Severity
  userWarned : Bool
  quarantined : Bool
  requiresReview : Bool
  escalationJobs : List ResponseAction
deriving DecidableEq, Repr

/-- `escalateToHuman` (AutomatedResponseService.ts:301-320): enqueue an
escalation-lane job and set the escalation markers. -/
def escalateToHuman (action : ResponseAction) (s : ContentModState) : ContentModState :=
  { s with
    escalationJobs := s.escalationJobs ++ [action]
    escalated := true
    escalationReason := some action.reason
    reviewPriority := some action.severity }

/-- `removeContent` (AutomatedResponseService.ts:282-299): below the
auto-action threshold the removal is downgraded to an escalation. -/
def removeContent (autoActionThreshold : ℚ) (action : ResponseAction)
    (detectionResult : DetectionResult) (s : ContentModState) : ContentModState :=
  if detectionResult.harmfulnessScore < autoActionThreshold then
    escalateToHuman action s
  else
    { s with removed := true, removeReason := some action.reason }

/-- `flagContent` (AutomatedResponseService.ts:266-280). -/
def flagContent (_action : ResponseAction) (s : ContentModState) : ContentModState :=
  { s with flagged := true }

/-- `warnUser` (AutomatedResponseService.ts:322-335). -/
def warnUser (_action : ResponseAction) (s : ContentModState) : ContentModState :=
  { s with userWarned := true }

/-- `quarantineContent` (AutomatedResponseService.ts:337-348). -/
def quarantineContent (_action : ResponseAction) (s : ContentModState) : ContentModState :=
  { s with quarantined := true, requiresReview := true }

/-- `notifyStakeholders` (AutomatedResponseService.ts:350-362): logging
only, no content-state mutation. -/
def notifyStakeholders (_action : ResponseAction) (s : ContentModState) : ContentModState :=
  s

/-- `executeAction` (AutomatedResponseService.ts:236-264): dispatch on the
action type. -/
def executeAction (autoActionThreshold : ℚ) (action : ResponseAction)
    (detectionResult : DetectionResult) (s : ContentModState) : ContentModState :=
  match action.type with
  | .flag => flagContent action s
  | .remove => removeContent autoActionThreshold action detectionResult s
  | .escalate => escalateToHuman action s
  | .warn => warnUser action s
  | .quarantine => quarantineContent action s
  | .notify => notifyStakeholders action s

/-- `TrendData` (TrendAnalysisService.ts:5-19); dates as epoch milliseconds. -/
structure TrendData where
  id : String
  hashtags : List String
  keywords : List String
  platforms : List String
  harmfulnessScore : ℚ
  viralityScore : ℚ
  growthRate : ℚ
  firstDetected : ℤ
  lastUpdated : ℤ
  contentCount : ℚ
  averageEngagement : ℚ
  categories : List String
  riskLevel : RiskLevel
deriving DecidableEq, Repr

/-- `this.viralityThreshold = 1000` (TrendAnalysisService.ts:38). -/
def viralityThresholdDefault : ℚ := 1000

/-- `calculateViralityScore` (TrendAnalysisService.ts:325-329). -/
def calculateViralityScore (contentCount averageEngagement : ℚ) : ℚ :=
  let contentScore := min (contentCount / 100) 1
  let engagementScore := min (averageEngagement / viralityThresholdDefault) 1
  (contentScore + engagementScore) / 2

/-- `calculateGrowthRate` (TrendAnalysisService.ts:331-335). -/
def calculateGrowthRate (firstDetected lastUpdated : ℤ) (contentCount : ℚ) : ℚ :=
  let timeSpanHours : ℚ := ((lastUpdated - firstDetected : ℤ) : ℚ) / (1000 * 60 * 60)
  if timeSpanHours ≤ 0 then 0 else contentCount / timeSpanHours

/-- `calculateRiskLevel` (TrendAnalysisService.ts:337-344). -/
def calculateRiskLevel (harmfulnessScore viralityScore : ℚ) (platformCount : ℚ) : RiskLevel :=
  let riskScore :=
    harmfulnessScore * 0.5 + viralityScore * 0.3 + min (platformCount / 5) 1 * 0.2
  if riskScore ≥ 0.85 then .critical
  else if riskScore ≥ 0.7 then .high
  else if riskScore ≥ 0.5 then .medium
  else .low

/-- The argument record every `createTrendData` call site builds (all of
these fields are always supplied by the three detector passes). -/
structure TrendSeed where
  id : String
  hashtags : List String
  keywords : List String
  platforms : List String
  harmfulnessScore : ℚ
  contentCount : ℚ
  averageEngagement : ℚ
  categories : List String
  firstDetected : ℤ
  lastUpdated : ℤ
deriving DecidableEq, Repr

/-- `createTrendData` (TrendAnalysisService.ts:303-323).  The
`data.platforms?.length || 1` fallback makes an empty platform list count
as 1; the `|| 0` fallbacks on the numeric fields are identities here since
every call site supplies them. -/
def createTrendData (data : TrendSeed) : TrendData :=
  let viralityScore := calculateViralityScore data.contentCount data.averageEngagement
  let growthRate := calculateGrowthRate data.firstDetected data.lastUpdated data.contentCount
  let platformCount : ℚ := if data.platforms.isEmpty then 1 else (data.platforms.length : ℚ)
  let riskLevel := calculateRiskLevel data.harmfulnessScore viralityScore platformCount
  { id := data.id
    hashtags := data.hashtags
    keywords := data.keywords
    platforms := data.platforms
    harmfulnessScore := data.harmfulnessScore
    viralityScore := viralityScore
    growthRate := growthRate
    firstDetected := data.firstDetected
    lastUpdated := data.lastUpdated
    contentCount := data.contentCount
    averageEngagement := data.averageEngagement
    categories := data.categories
    riskLevel := riskLevel }

/-- One `$group` result of the hashtag aggregation pipeline
(TrendAnalysisService.ts:110-125): `_id` is the hashtag; `categories` is an
array of category arrays (from `$addToSet`), flattened by the caller. -/
structure HashtagGroup where
  tag : String
  count : ℚ
  platforms : List String
  avgHarmfulnessScore : ℚ
  totalEngagement : ℚ
  categories : List (List String)
  firstSeen : ℤ
  lastSeen : ℤ
deriving DecidableEq, Repr

/-- The result-mapping step of `detectTrendingHashtags`
(TrendAnalysisService.ts:142-153), applied to the post-pipeline groups. -/
def detectTrendingHashtags (results : List HashtagGroup) : List TrendData :=
  results.map (fun result => createTrendData
    { id := "hashtag_" ++ result.tag
      hashtags := [result.tag]
      keywords := []
      platforms := result.platforms
      harmfulnessScore := result.avgHarmfulnessScore
      contentCount := result.count
      averageEngagement := result.totalEngagement / result.count
      categories := result.categories.flatten
      firstDetected := result.firstSeen
      lastUpdated := result.lastSeen })

/-- One `$group` result of the keyword aggregation pipeline
(TrendAnalysisService.ts:189-204): `_id` is the extracted word. -/
structure KeywordGroup where
  word : String
  count : ℚ
  platforms : List String
  avgHarmfulnessScore : ℚ
  totalEngagement : ℚ
  categories : List (List String)
  firstSeen : ℤ
  lastSeen : ℤ
deriving DecidableEq, Repr

/-- The result-mapping step of `detectTrendingKeywords`
(TrendAnalysisService.ts:222-233). -/
def detectTrendingKeywords (results : List KeywordGroup) : List TrendData :=
  results.map (fun result => createTrendData
    { id := "keyword_" ++ result.word
      hashtags := []
      keywords := [result.word]
      platforms := result.platforms
      harmfulnessScore := result.avgHarmfulnessScore
      contentCount := result.count
      averageEngagement := result.totalEngagement / result.count
      categories := result.categories.flatten
      firstDetected := result.firstSeen
      lastUpdated := result.lastSeen })

/-- One `$group` result of the cross-platform pipeline
(TrendAnalysisService.ts:251-266): `_id` is the (categories, hashtags)
pair. -/
structure CrossPlatformGroup where
  categories : List String
  hashtags : List String
  platforms : List String
  count : ℚ
  avgHarmfulnessScore : ℚ
  totalEngagement : ℚ
  firstSeen : ℤ
  lastSeen : ℤ
deriving DecidableEq, Repr

/-- `results.map((result, index) => …)` with an explicit start index. -/
def mapIdxFrom (f : ℕ → CrossPlatformGroup → TrendData) :
    ℕ → List CrossPlatformGroup → List TrendData
  | _, [] => []
  | i, g :: t => f i g :: mapIdxFrom f (i + 1) t

/-- The result-mapping step of `detectCrossPlatformTrends`
(TrendAnalysisService.ts:285-296): note the trend id is
`` `crossplatform_${index}` ``, derived from the group's position in the
result list, not from its signals. -/
def detectCrossPlatformTrends (results : List CrossPlatformGroup) : List TrendData :=
  mapIdxFrom (fun index result => createTrendData
    { id := "crossplatform_" ++ toString index
      hashtags := result.hashtags
      keywords := []
      platforms := result.platforms
      harmfulnessScore := result.avgHarmfulnessScore
      contentCount := result.count
      averageEngagement := result.totalEngagement / result.count
      categories := result.categories
      firstDetected := result.firstSeen
      lastUpdated := result.lastSeen }) 0 results

/-- `EarlyWarning` (TrendAnalysisService.ts:21-29).  The severity is
`trend.riskLevel as any` in the source, hence typed `RiskLevel` here; the
presentation-only `title`/`description` strings (whose construction uses
JS `Number.prototype.toFixed` formatting) are omitted. -/
structure EarlyWarning where
  id : String
  severity : RiskLevel
  trendData : TrendData
  recommendedActions : List String
  createdAt : ℤ
deriving DecidableEq, Repr

/-- `generateRecommendedActions` (TrendAnalysisService.ts:422-450). -/
def generateRecommendedActions (trend : TrendData) : List String :=
  (if trend.riskLevel = .critical then
    ["Immediate human review required", "Consider emergency content removal",
     "Notify platform partners"] else []) ++
  (if trend.riskLevel = .high then
    ["Escalate to senior moderators", "Increase monitoring frequency",
     "Prepare response guidelines"] else []) ++
  (if trend.platforms.length > 2 then ["Coordinate cross-platform response"] else []) ++
  (if trend.categories.contains "self_harm" then ["Alert mental health support teams"] else []) ++
  (if trend.categories.contains "dangerous_challenge" then ["Issue safety warnings"] else [])

/-- A Redis side effect performed by the trend ledger / warning emitter. -/
inductive RedisEffect where
  | setExTrend (key : String) (ttlSeconds : ℤ) (trend : TrendData)
  | setExWarning (key : String) (ttlSeconds : ℤ) (warning : EarlyWarning)
  | zAdd (key : String) (score : ℚ) (value : String)
  | lPush (key : String) (value : String)
deriving DecidableEq, Repr

/-- `storeTrendData` (TrendAnalysisService.ts:372-382): 24h-TTL store of
the trend plus a ranked-index update keyed by harmfulness × virality. -/
def storeTrendData (trend : TrendData) : List RedisEffect :=
  [ .setExTrend ("trend:" ++ trend.id) (24 * 60 * 60) trend,
    .zAdd "trending:active" (trend.harmfulnessScore * trend.viralityScore) trend.id ]

/-- `generateEarlyWarning` (TrendAnalysisService.ts:384-408), with
`Date.now()` passed in as `now`: builds the warning, stores it with a 7-day
TTL, and pushes its id onto the single list `warnings:active`. -/
def generateEarlyWarning (now : ℤ) (trend : TrendData) : EarlyWarning × List RedisEffect :=
  let warning : EarlyWarning :=
    { id := "warning_" ++ trend.id ++ "_" ++ toString now
      severity := trend.riskLevel
      trendData := trend
      recommendedActions := generateRecommendedActions trend
      createdAt := now }
  (warning,
   [ .setExWarning ("warning:" ++ warning.id) (7 * 24 * 60 * 60) warning,
     .lPush "warnings:active" warning.id ])

/-- The store-and-promote loop of `analyzeCurrentTrends`
(TrendAnalysisService.ts:82-88) over the consolidated trend list: every
trend is stored; a trend is promoted to an early warning exactly when its
risk level is high or critical. -/
def analyzeTrendsCycleEffects (now : ℤ) (consolidatedTrends : List TrendData) :
    List RedisEffect :=
  (consolidatedTrends.map (fun trend =>
    storeTrendData trend ++
      (if trend.riskLevel = .high ∨ trend.riskLevel = .critical then
        (generateEarlyWarning now trend).2
      else []))).flatten

/-- The lowercase name of a risk level, as interpolated into Redis keys
like `` `warnings:${severity}` `` by the alerts API route. -/
def riskLevelKeyString : RiskLevel → String
  | .low => "low"
  | .medium => "medium"
  | .high => "high"
  | .critical => "critical"

/-- `getDefaultEscalationRules` (AutomatedResponseService.ts:443-517). -/
def getDefaultEscalationRules : List EscalationRule :=
  [ { id := "critical_self_harm"
      name := "Critical Self-Harm Content"
      conditions :=
        { harmfulnessScore := some { min := some 0.8, max := none }
          categories := some ["self_harm"]
          platforms := none
          confidence := none
          viralityIndicators := none }
      actions :=
        [ { type := .remove, severity := .critical, automated := true
            reason := "Self-harm content detected" },
          { type := .notify, severity := .critical, automated := true
            reason := "Mental health crisis alert" } ]
      priority := 100
      enabled := true },
    { id := "high_violence_viral"
      name := "High Violence with Viral Potential"
      conditions :=
        { harmfulnessScore := some { min := some 0.75, max := none }
          categories := some ["violence"]
          platforms := none
          confidence := none
          viralityIndicators := some true }
      actions :=
        [ { type := .quarantine, severity := .high, automated := true
            reason := "Violent content with viral potential" },
          { type := .escalate, severity := .high, automated := true
            reason := "Human review required for viral violent content" } ]
      priority := 90
      enabled := true },
    { id := "moderate_hate_speech"
      name := "Moderate Hate Speech"
      conditions :=
        { harmfulnessScore := some { min := some 0.6, max := some 0.85 }
          categories := some ["hate_speech"]
          platforms := none
          confidence := none
          viralityIndicators := none }
      actions :=
        [ { type := .flag, severity := .medium, automated := true
            reason := "Hate speech detected" },
          { type := .warn, severity := .medium, automated := true
            reason := "Community guidelines violation" } ]
      priority := 70
      enabled := true },
    { id := "dangerous_challenge_tiktok"
      name := "Dangerous Challenge on TikTok"
      conditions :=
        { harmfulnessScore := some { min := some 0.7, max := none }
          categories := some ["dangerous_challenge"]
          platforms := some ["tiktok"]
          confidence := none
          viralityIndicators := none }
      actions :=
        [ { type := .remove, severity := .high, automated := true
            reason := "Dangerous challenge removed for safety" },
          { type := .notify, severity := .high, automated := true
            reason := "Dangerous trend alert" } ]
      priority := 85
      enabled := true },
    { id := "low_confidence_high_harm"
      name := "Low Confidence High Harm Score"
      conditions :=
        { harmfulnessScore := some { min := some 0.8, max := none }
          categories := none
          platforms := none
          confidence := some { min := some 0 }
          viralityIndicators := none }
      actions :=
        [ { type := .escalate, severity := .medium, automated := true
            reason := "Low confidence high harm - needs human review" } ]
      priority := 60
      enabled := true } ]

/-- Same key, same derived priority: `getActionPriority` depends only on
the `(type, severity)` pair that is the consolidation key. -/
theorem actionKey_eq_priority {a b : ResponseAction} (h : actionKey a = actionKey b) :
    getActionPriority a = getActionPriority b := by
  simp only [actionKey, Prod.mk.injEq] at h
  simp [getActionPriority, h.1, h.2]

/-- Well-formedness of the consolidation map: every binding stores an
action under its own key. -/
def MapWF (m : List ((ActionType × Severity) × ResponseAction)) : Prop :=
  ∀ p ∈ m, actionKey p.2 = p.1

/-- On a well-formed map, the replace branch of `consolidateStep` is dead
(an existing entry under the same key has the same derived priority), so
the step keeps the first occurrence of each key. -/
theorem consolidateStep_eq {m : List ((ActionType × Severity) × ResponseAction)}
    (hwf : MapWF m) (a : ResponseAction) :
    consolidateStep m a =
      if m.any (fun p => decide (p.1 = actionKey a)) then m
      else m ++ [(actionKey a, a)] := by
  rcases hfind : m.find? (fun p => decide (p.1 = actionKey a)) with _ | p0
  · have hget : mapGetA m (actionKey a) = none := by simp [mapGetA, hfind]
    have hany : m.any (fun p => decide (p.1 = actionKey a)) = false := by
      rw [List.any_eq_false]
      intro x hx hpx
      exact (List.find?_eq_none.mp hfind x hx) hpx
    simp [consolidateStep, hget, mapSetA, hany]
  · have hget : mapGetA m (actionKey a) = some p0.2 := by simp [mapGetA, hfind]
    have hp0 : p0.1 = actionKey a := by
      have hp0d := @List.find?_some _ (fun q => decide (q.1 = actionKey a)) p0 m hfind
      simpa using hp0d
    have hmem := List.mem_of_find?_eq_some hfind
    have hpr : getActionPriority p0.2 = getActionPriority a :=
      actionKey_eq_priority (by rw [hwf p0 hmem, hp0])
    have hany : m.any (fun p => decide (p.1 = actionKey a)) = true :=
      List.any_eq_true.mpr ⟨p0, hmem, decide_eq_true hp0⟩
    simp [consolidateStep, hget, hpr, hany]

/-- `consolidateStep` preserves map well-formedness. -/
theorem MapWF_step {m : List ((ActionType × Severity) × ResponseAction)}
    (hwf : MapWF m) (a : ResponseAction) : MapWF (consolidateStep m a) := by
  rw [consolidateStep_eq hwf]
  split
  · exact hwf
  · intro p hp
    rcases List.mem_append.mp hp with h | h
    · exact hwf p h
    · simp only [List.mem_singleton] at h
      subst h
      rfl

/-- First occurrence of each key, scanning left to right with an
accumulated set of already-seen keys: the order-preserving deduplication
the keyed JS `Map` performs. -/
def firstOccs : List ResponseAction → List (ActionType × Severity) → List ResponseAction
  | [], _ => []
  | a :: t, seen =>
    if actionKey a ∈ seen then firstOccs t seen
    else a :: firstOccs t (actionKey a :: seen)

/-- `firstOccs` only consults the seen set through membership. -/
theorem firstOccs_congr : ∀ (l : List ResponseAction) (s s' : List (ActionType × Severity)),
    (∀ x, x ∈ s ↔ x ∈ s') → firstOccs l s = firstOccs l s' := by
  intro l
  induction l with
  | nil => intro s s' _; rfl
  | cons a t ih =>
    intro s s' hss
    by_cases h : actionKey a ∈ s
    · rw [firstOccs, if_pos h, firstOccs, if_pos ((hss _).mp h)]
      exact ih s s' hss
    · rw [firstOccs, if_neg h, firstOccs, if_neg (fun hc => h ((hss _).mpr hc))]
      congr 1
      refine ih _ _ ?_
      intro x
      simp only [List.mem_cons]
      constructor
      · rintro (rfl | hx)
        · exact Or.inl rfl
        · exact Or.inr ((hss x).mp hx)
      · rintro (rfl | hx)
        · exact Or.inl rfl
        · exact Or.inr ((hss x).mpr hx)

/-- Unfolding the consolidation fold: the map's values are the already
present values followed by the first occurrences of the not-yet-seen keys. -/
theorem foldl_consolidate : ∀ (l : List ResponseAction)
    (m : List ((ActionType × Severity) × ResponseAction)), MapWF m →
    (l.foldl consolidateStep m).map (·.2) = m.map (·.2) ++ firstOccs l (m.map (·.1)) := by
  intro l
  induction l with
  | nil => intro m _; simp [firstOccs]
  | cons a t ih =>
    intro m hwf
    rw [List.foldl_cons]
    by_cases hmem : actionKey a ∈ m.map (·.1)
    · have hany : m.any (fun p => decide (p.1 = actionKey a)) = true := by
        rw [List.any_eq_true]
        obtain ⟨p, hp, hpk⟩ := List.mem_map.mp hmem
        exact ⟨p, hp, decide_eq_true hpk⟩
      have hstep : consolidateStep m a = m := by
        rw [consolidateStep_eq hwf, if_pos hany]
      rw [hstep, ih m hwf]
      congr 1
      rw [firstOccs, if_pos hmem]
    · have hany : m.any (fun p => decide (p.1 = actionKey a)) = false := by
        rw [List.any_eq_false]
        intro p hp hdec
        exact hmem (List.mem_map.mpr ⟨p, hp, of_decide_eq_true hdec⟩)
      have hstep : consolidateStep m a = m ++ [(actionKey a, a)] := by
        rw [consolidateStep_eq hwf]
        simp [hany]
      have hwf' : MapWF (m ++ [(actionKey a, a)]) := by
        intro p hp
        rcases List.mem_append.mp hp with h | h
        · exact hwf p h
        · simp only [List.mem_singleton] at h
          subst h
          rfl
      rw [hstep, ih _ hwf']
      rw [firstOccs, if_neg hmem]
      rw [firstOccs_congr t ((m ++ [(actionKey a, a)]).map (·.1))
        (actionKey a :: m.map (·.1))
        (fun x => by simp [List.mem_append, List.mem_cons, or_comm])]
      simp

/-- `consolidateActions` is the stable descending sort of the first
occurrence of each `(type, severity)` key across the rules' flattened
action lists. -/
theorem consolidateActions_eq (rules : List EscalationRule) :
    consolidateActions rules =
      List.insertionSort actionGE (firstOccs ((rules.map (·.actions)).flatten) []) := by
  show List.insertionSort actionGE
      (((((rules.map (·.actions)).flatten).foldl consolidateStep []).map (·.2))) = _
  rw [foldl_consolidate _ [] (fun p hp => absurd hp (List.not_mem_nil p))]
  simp

/-- An element of `firstOccs` splits the scanned list at a position before
which its key never occurs. -/
theorem firstOccs_mem_split {a : ResponseAction} :
    ∀ (l : List ResponseAction) (seen), a ∈ firstOccs l seen →
    ∃ l1 l2, l = l1 ++ a :: l2 ∧ actionKey a ∉ seen ∧
      ∀ b ∈ l1, actionKey b ≠ actionKey a := by
  intro l
  induction l with
  | nil => intro seen h; simp [firstOccs] at h
  | cons c t ih =>
    intro seen h
    by_cases hc : actionKey c ∈ seen
    · rw [firstOccs, if_pos hc] at h
      obtain ⟨l1, l2, heq, hseen, hne⟩ := ih seen h
      refine ⟨c :: l1, l2, by simp [heq], hseen, ?_⟩
      intro b hb
      rcases List.mem_cons.mp hb with rfl | hb
      · exact fun hk => hseen (hk ▸ hc)
      · exact hne b hb
    · rw [firstOccs, if_neg hc] at h
      rcases List.mem_cons.mp h with rfl | h
      · exact ⟨[], t, rfl, hc, fun b hb => absurd hb (List.not_mem_nil b)⟩
      · obtain ⟨l1, l2, heq, hseen, hne⟩ := ih _ h
        have hkne : actionKey a ≠ actionKey c :=
          fun hk => hseen (by rw [hk]; exact List.mem_cons_self _ _)
        have hseen' : actionKey a ∉ seen := fun hk => hseen (List.mem_cons_of_mem _ hk)
        refine ⟨c :: l1, l2, by simp [heq], hseen', ?_⟩
        intro b hb
        rcases List.mem_cons.mp hb with rfl | hb
        · exact fun hk => hkne hk.symm
        · exact hne b hb

/-- The keys of `firstOccs` are distinct and disjoint from the seen set. -/
theorem firstOccs_nodup_keys : ∀ (l : List ResponseAction) (seen),
    ((firstOccs l seen).map actionKey).Nodup ∧
      ∀ a ∈ firstOccs l seen, actionKey a ∉ seen := by
  intro l
  induction l with
  | nil => intro seen; simp [firstOccs]
  | cons c t ih =>
    intro seen
    by_cases hc : actionKey c ∈ seen
    · rw [firstOccs, if_pos hc]
      exact ih seen
    · rw [firstOccs, if_neg hc]
      obtain ⟨hnodup, hdisj⟩ := ih (actionKey c :: seen)
      constructor
      · rw [List.map_cons, List.nodup_cons]
        refine ⟨fun hmem => ?_, hnodup⟩
        obtain ⟨a, ha, hka⟩ := List.mem_map.mp hmem
        exact hdisj a ha (by rw [hka]; exact List.mem_cons_self _ _)
      · intro a ha
        rcases List.mem_cons.mp ha with rfl | ha
        · exact hc
        · exact fun hk => hdisj a ha (List.mem_cons_of_mem _ hk)

/-- Every scanned element whose key is not already seen has a
representative (with the same key) in `firstOccs`. -/
theorem firstOccs_keys_complete {b : ResponseAction} :
    ∀ (l : List ResponseAction) (seen), b ∈ l → actionKey b ∉ seen →
    ∃ a ∈ firstOccs l seen, actionKey a = actionKey b := by
  intro l
  induction l with
  | nil => intro seen h; exact absurd h (List.not_mem_nil b)
  | cons c t ih =>
    intro seen hb hseen
    by_cases hc : actionKey c ∈ seen
    · rw [firstOccs, if_pos hc]
      rcases List.mem_cons.mp hb with rfl | hb
      · exact absurd hc hseen
      · exact ih seen hb hseen
    · rw [firstOccs, if_neg hc]
      by_cases hk : actionKey b = actionKey c
      · exact ⟨c, List.mem_cons_self _ _, hk.symm⟩
      · rcases List.mem_cons.mp hb with rfl | hb
        · exact absurd rfl hk
        · obtain ⟨a, ha, hka⟩ := ih (actionKey c :: seen) hb (by
            intro hmem
            rcases List.mem_cons.mp hmem with h | h
            · exact hk h
            · exact hseen h)
          exact ⟨a, List.mem_cons_of_mem _ ha, hka⟩

/-- `firstOccs` is the identity on a list with distinct keys disjoint from
the seen set. -/
theorem firstOccs_of_nodup : ∀ (l : List ResponseAction) (seen),
    ((l.map actionKey).Nodup) → (∀ a ∈ l, actionKey a ∉ seen) →
    firstOccs l seen = l := by
  intro l
  induction l with
  | nil => intro seen _ _; rfl
  | cons c t ih =>
    intro seen hnodup hdisj
    rw [List.map_cons, List.nodup_cons] at hnodup
    rw [firstOccs, if_neg (hdisj c (List.mem_cons_self _ _))]
    congr 1
    refine ih _ hnodup.2 ?_
    intro a ha hmem
    rcases List.mem_cons.mp hmem with h | h
    · exact hnodup.1 (List.mem_map.mpr ⟨a, ha, h⟩)
    · exact hdisj a (List.mem_cons_of_mem _ ha) h

/-- Attribution: when the rules are sorted by descending priority, an
action that is the first occurrence of its key in the flattened action
list comes from a rule whose priority is maximal among all rules that
mention that key. -/
theorem consolidated_attribution (a : ResponseAction) :
    ∀ (rules : List EscalationRule), List.Sorted ruleGE rules →
    ∀ l1 l2, (rules.map (·.actions)).flatten = l1 ++ a :: l2 →
    (∀ b ∈ l1, actionKey b ≠ actionKey a) →
    ∃ r ∈ rules, a ∈ r.actions ∧
      ∀ r' ∈ rules, (∃ b ∈ r'.actions, actionKey b = actionKey a) →
        r'.priority ≤ r.priority := by
  intro rules
  induction rules with
  | nil =>
    intro _ l1 l2 heq _
    simp at heq
  | cons r rest ih =>
    intro hsorted l1 l2 heq hne
    have hsorted' : List.Sorted ruleGE rest := hsorted.of_cons
    have hhead : ∀ r' ∈ rest, r'.priority ≤ r.priority :=
      fun r' hr' => (List.sorted_cons.mp hsorted).1 r' hr'
    rw [List.map_cons, List.flatten_cons] at heq
    rcases List.append_eq_append_iff.mp heq with ⟨a', h1, h2⟩ | ⟨c', h1, h2⟩
    · have hne' : ∀ b ∈ a', actionKey b ≠ actionKey a :=
        fun b hb => hne b (by rw [h1]; exact List.mem_append_right _ hb)
      obtain ⟨r0, hr0, ha0, hmax⟩ := ih hsorted' a' l2 h2 hne'
      refine ⟨r0, List.mem_cons_of_mem _ hr0, ha0, ?_⟩
      intro r' hr' hkey
      rcases List.mem_cons.mp hr' with rfl | hr'
      · obtain ⟨b, hb, hkb⟩ := hkey
        exact absurd hkb (hne b (by rw [h1]; exact List.mem_append_left _ hb))
      · exact hmax r' hr' hkey
    · cases c' with
      | nil =>
        have hl1 : r.actions = l1 := by simpa using h1
        have h2' : (rest.map (·.actions)).flatten = [] ++ a :: l2 := by
          simpa using h2.symm
        obtain ⟨r0, hr0, ha0, hmax⟩ :=
          ih hsorted' [] l2 h2' (fun b hb => absurd hb (List.not_mem_nil b))
        refine ⟨r0, List.mem_cons_of_mem _ hr0, ha0, ?_⟩
        intro r' hr' hkey
        rcases List.mem_cons.mp hr' with rfl | hr'
        · obtain ⟨b, hb, hkb⟩ := hkey
          exact absurd hkb (hne b (hl1 ▸ hb))
        · exact hmax r' hr' hkey
      | cons a2 c'' =>
        rw [List.cons_append] at h2
        have ha2 : a = a2 := by
          have := congrArg (fun l => l.head?) h2
          simpa using this
        subst ha2
        refine ⟨r, List.mem_cons_self _ _,
          by rw [h1]; exact List.mem_append_right _ (List.mem_cons_self _ _), ?_⟩
        intro r' hr' _
        rcases List.mem_cons.mp hr' with rfl | hr'
        · exact le_refl _
        · exact hhead r' hr'

/-- For each consolidated action, the rule it came from has maximal
priority among the rules whose action lists mention its
`(type, severity)` key. -/
def HighestPriorityWins (rules : List EscalationRule) : Prop :=
  ∀ a ∈ consolidateActions rules, ∃ r ∈ rules, a ∈ r.actions ∧
    ∀ r' ∈ rules, (∃ b ∈ r'.actions, actionKey b = actionKey a) →
      r'.priority ≤ r.priority

/-- Every `(type, severity)` pair occurring in some rule's action list is
represented in the consolidated output. -/
def AllPairsRepresented (rules : List EscalationRule) : Prop :=
  ∀ r ∈ rules, ∀ b ∈ r.actions,
    ∃ a ∈ consolidateActions rules, actionKey a = actionKey b

/-- The consolidated output never contains two actions with the same
`(type, severity)` key. -/
theorem consolidate_keys_nodup (rules : List EscalationRule) :
    ((consolidateActions rules).map actionKey).Nodup := by
  rw [consolidateActions_eq]
  have hperm : List.Perm
      ((List.insertionSort actionGE
        (firstOccs ((rules.map (·.actions)).flatten) [])).map actionKey)
      ((firstOccs ((rules.map (·.actions)).flatten) []).map actionKey) :=
    (List.perm_insertionSort _ _).map actionKey
  exact hperm.nodup_iff.mpr (firstOccs_nodup_keys _ _).1

/-- C4: on a rule list sorted by descending rule priority,
`consolidateActions` keeps, per `(action type, severity)` pair occurring
across the rules' action lists, exactly one occurrence, contributed by the
highest-priority rule mentioning that pair, and returns the actions sorted
by descending derived priority `typeWeight(type) × severityWeight(severity)`,
with the type weights ordering remove > quarantine > escalate > flag >
warn = notify. -/
theorem consolidateActions_highest_priority_sorted (rules : List EscalationRule)
    (hsorted : List.Sorted ruleGE rules) :
    HighestPriorityWins rules ∧ AllPairsRepresented rules ∧
    ((consolidateActions rules).map actionKey).Nodup ∧
    List.Sorted actionGE (consolidateActions rules) ∧
    (∀ a : ResponseAction,
      getActionPriority a = typePriorityOf a.type * severityPriorityOf a.severity) ∧
    (typePriorityOf .remove > typePriorityOf .quarantine ∧
     typePriorityOf .quarantine > typePriorityOf .escalate ∧
     typePriorityOf .escalate > typePriorityOf .flag ∧
     typePriorityOf .flag > typePriorityOf .warn ∧
     typePriorityOf .warn = typePriorityOf .notify) := by
  refine ⟨?_, ?_, consolidate_keys_nodup rules, ?_, fun a => rfl, by decide⟩
  · intro a ha
    rw [consolidateActions_eq] at ha
    have ha' : a ∈ firstOccs ((rules.map (·.actions)).flatten) [] :=
      (List.mem_insertionSort _).mp ha
    obtain ⟨l1, l2, heq, _, hne⟩ := firstOccs_mem_split _ _ ha'
    exact consolidated_attribution a rules hsorted l1 l2 heq hne
  · intro r hr b hb
    have hbflat : b ∈ ((rules.map (·.actions)).flatten) :=
      List.mem_flatten.mpr ⟨r.actions, List.mem_map_of_mem _ hr, hb⟩
    obtain ⟨a, ha, hka⟩ :=
      firstOccs_keys_complete _ [] hbflat (List.not_mem_nil _)
    refine ⟨a, ?_, hka⟩
    rw [consolidateActions_eq]
    exact (List.mem_insertionSort _).mpr ha
  · rw [consolidateActions_eq]
    exact List.sorted_insertionSort _ _

/-- `(l.map (fun a => [a])).flatten = l`. -/
theorem flatten_map_singleton {α : Type} (l : List α) :
    (l.map (fun a => [a])).flatten = l := by
  induction l with
  | nil => rfl
  | cons a t ih => simp [ih]

/-- The empty condition set (every condition unspecified). -/
def emptyRuleConditions : RuleConditions :=
  { harmfulnessScore := none, categories := none, platforms := none
    confidence := none, viralityIndicators := none }

/-- A singleton rule wrapping one already-consolidated action, used to
feed a consolidated output back through consolidation. -/
def singletonRuleOf (a : ResponseAction) : EscalationRule :=
  { id := "consolidated", name := "Consolidated action"
    conditions := emptyRuleConditions, actions := [a]
    priority := 0, enabled := true }

/-- C9: rule consolidation is idempotent: the consolidated output contains
no two actions with the same `(type, severity)` pair, and consolidating
the output again (each action as the action list of a singleton rule)
returns the output unchanged. -/
theorem consolidateActions_idempotent (rules : List EscalationRule) :
    ((consolidateActions rules).map actionKey).Nodup ∧
    consolidateActions ((consolidateActions rules).map singletonRuleOf) =
      consolidateActions rules := by
  have hnodup : ((consolidateActions rules).map actionKey).Nodup :=
    consolidate_keys_nodup rules
  refine ⟨hnodup, ?_⟩
  rw [consolidateActions_eq ((consolidateActions rules).map singletonRuleOf)]
  have hflat :
      ((((consolidateActions rules).map singletonRuleOf).map (·.actions)).flatten) =
        consolidateActions rules := by
    rw [List.map_map]
    exact flatten_map_singleton _
  rw [hflat]
  rw [firstOccs_of_nodup _ _ hnodup (fun a _ h => absurd h (List.not_mem_nil _))]
  have hs : List.Sorted actionGE (consolidateActions rules) := by
    rw [consolidateActions_eq]
    exact List.sorted_insertionSort _ _
  exact hs.insertionSort_eq

/-- The urgency mapping as the specification words it: critical if score
≥ 0.95 or any high-risk category present; high if ≥ 0.85; medium if
≥ 0.70; else low. -/
def urgencySpec (d : DetectionResult) : Urgency :=
  if 0.95 ≤ d.harmfulnessScore ∨
      d.categories.any (fun cat => highRiskCategories.contains cat) = true then .critical
  else if 0.85 ≤ d.harmfulnessScore then .high
  else if 0.7 ≤ d.harmfulnessScore then .medium
  else .low

/-- C2: `determineUrgency` realises the spec's urgency mapping; in
particular any score in [0, 0.49] with no high-risk category yields `low`,
and any score ≥ 0.95 yields `critical`. -/
theorem determineUrgency_spec :
    (∀ d : DetectionResult, determineUrgency d = urgencySpec d) ∧
    (∀ d : DetectionResult, 0 ≤ d.harmfulnessScore → d.harmfulnessScore ≤ 0.49 →
      d.categories.any (fun cat => highRiskCategories.contains cat) = false →
      determineUrgency d = Urgency.low) ∧
    (∀ d : DetectionResult, 0.95 ≤ d.harmfulnessScore →
      determineUrgency d = Urgency.critical) := by
  refine ⟨fun d => rfl, ?_, ?_⟩
  · intro d h0 h49 hcat
    have h1 : ¬(d.harmfulnessScore ≥ 0.95 ∨
        d.categories.any (fun cat => highRiskCategories.contains cat) = true) := by
      rintro (h | h)
      · norm_num at h49 h ⊢
        linarith
      · rw [hcat] at h
        exact Bool.false_ne_true h
    have h2 : ¬(d.harmfulnessScore ≥ 0.85) := by
      norm_num at h49 ⊢
      linarith
    have h3 : ¬(d.harmfulnessScore ≥ 0.7) := by
      norm_num at h49 ⊢
      linarith
    simp only [determineUrgency, if_neg h1, if_neg h2, if_neg h3]
  · intro d h
    simp only [determineUrgency, if_pos (Or.inl h)]

/-- A detection with a low score and no high-risk category. -/
def demoLowDetection : DetectionResult :=
  { harmfulnessScore := 0.3, categories := ["spam"], confidence := 0.9
    reasoning := "low risk", flagged := true }

/-- A detection with a critical score (spec scenario: 0.97, self_harm). -/
def demoCriticalDetection : DetectionResult :=
  { harmfulnessScore := 0.97, categories := ["self_harm"], confidence := 0.9
    reasoning := "self harm", flagged := true }

/-- C2 witness: the urgency theorem applied at score 0.3 (no high-risk
category) and at score 0.97. -/
theorem determineUrgency_spec_witness :
    (0 ≤ demoLowDetection.harmfulnessScore ∧ demoLowDetection.harmfulnessScore ≤ 0.49 ∧
     demoLowDetection.categories.any (fun cat => highRiskCategories.contains cat) = false ∧
     determineUrgency demoLowDetection = Urgency.low) ∧
    (0.95 ≤ demoCriticalDetection.harmfulnessScore ∧
     determineUrgency demoCriticalDetection = Urgency.critical) :=
  ⟨⟨by norm_num [demoLowDetection], by norm_num [demoLowDetection], by decide,
    determineUrgency_spec.2.1 demoLowDetection (by norm_num [demoLowDetection])
      (by norm_num [demoLowDetection]) (by decide)⟩,
   by norm_num [demoCriticalDetection],
   determineUrgency_spec.2.2 demoCriticalDetection (by norm_num [demoCriticalDetection])⟩

/-- C1: when the executor handles a `remove` action whose triggering
harmfulness score is strictly below the auto-action threshold, the content
is not marked removed; instead it is marked escalated with the action's
reason recorded and an escalation-lane job enqueued. -/
theorem remove_below_threshold_escalates (autoActionThreshold : ℚ)
    (action : ResponseAction) (d : DetectionResult) (s : ContentModState)
    (htype : action.type = ActionType.remove)
    (hscore : d.harmfulnessScore < autoActionThreshold) :
    (executeAction autoActionThreshold action d s).removed = s.removed ∧
    (executeAction autoActionThreshold action d s).escalated = true ∧
    (executeAction autoActionThreshold action d s).escalationReason = some action.reason ∧
    (executeAction autoActionThreshold action d s).escalationJobs =
      s.escalationJobs ++ [action] := by
  simp [executeAction, htype, removeContent, hscore, escalateToHuman]

/-- The `remove critical` action of the default self-harm rule. -/
def demoRemoveAction : ResponseAction :=
  { type := .remove, severity := .critical, automated := true
    reason := "Self-harm content detected" }

/-- A pristine moderation state. -/
def demoModState : ContentModState :=
  { flagged := false, removed := false, removeReason := none
    escalated := false, escalationReason := none, reviewPriority := none
    userWarned := false, quarantined := false, requiresReview := false
    escalationJobs := [] }

/-- A detection whose score 0.9 sits below the default 0.95 threshold. -/
def demoMidDetection : DetectionResult :=
  { harmfulnessScore := 0.9, categories := ["self_harm"], confidence := 0.8
    reasoning := "likely self harm", flagged := true }

/-- C1 witness: a `remove` at score 0.9 against the default threshold
0.95 escalates instead of removing. -/
theorem remove_below_threshold_escalates_witness :
    (demoRemoveAction.type = ActionType.remove ∧
     demoMidDetection.harmfulnessScore < defaultAutoActionThreshold) ∧
    ((executeAction defaultAutoActionThreshold demoRemoveAction demoMidDetection
        demoModState).removed = demoModState.removed ∧
     (executeAction defaultAutoActionThreshold demoRemoveAction demoMidDetection
        demoModState).escalated = true ∧
     (executeAction defaultAutoActionThreshold demoRemoveAction demoMidDetection
        demoModState).escalationReason = some demoRemoveAction.reason ∧
     (executeAction defaultAutoActionThreshold demoRemoveAction demoMidDetection
        demoModState).escalationJobs = demoModState.escalationJobs ++ [demoRemoveAction]) :=
  ⟨⟨rfl, by norm_num [demoMidDetection, defaultAutoActionThreshold]⟩,
   remove_below_threshold_escalates defaultAutoActionThreshold demoRemoveAction
     demoMidDetection demoModState rfl
     (by norm_num [demoMidDetection, defaultAutoActionThreshold])⟩

/-- The virality formula as the specification words it. -/
def viralitySpecFormula (contentCount averageEngagement : ℚ) : ℚ :=
  (min (contentCount / 100) 1 + min (averageEngagement / 1000) 1) / 2

/-- The composite risk score as the specification words it. -/
def riskScoreSpec (harmfulness virality platformCount : ℚ) : ℚ :=
  0.5 * harmfulness + 0.3 * virality + 0.2 * min (platformCount / 5) 1

/-- The four-tier risk classification as the specification words it. -/
def riskLevelSpec (harmfulness virality platformCount : ℚ) : RiskLevel :=
  if riskScoreSpec harmfulness virality platformCount ≥ 0.85 then .critical
  else if riskScoreSpec harmfulness virality platformCount ≥ 0.7 then .high
  else if riskScoreSpec harmfulness virality platformCount ≥ 0.5 then .medium
  else .low

/-- C6: the trend scorer computes exactly the specification's virality
formula (with the default 1000 engagement threshold) and the specification's
weighted risk score with breakpoints 0.85 / 0.70 / 0.50. -/
theorem trendScoring_matches_spec :
    (∀ c e : ℚ, calculateViralityScore c e = viralitySpecFormula c e) ∧
    (∀ h v p : ℚ, calculateRiskLevel h v p = riskLevelSpec h v p) := by
  constructor
  · intro c e
    rfl
  · intro h v p
    have hscore : h * 0.5 + v * 0.3 + min (p / 5) 1 * 0.2 = riskScoreSpec h v p := by
      unfold riskScoreSpec
      ring
    simp only [calculateRiskLevel, riskLevelSpec, hscore]

/-- C7: a zero-time-span cluster has growth rate exactly 0, and a
positive-span cluster has growth rate contentCount divided by the span in
hours. -/
theorem calculateGrowthRate_spec (firstDetected lastUpdated : ℤ) (contentCount : ℚ) :
    (firstDetected = lastUpdated →
      calculateGrowthRate firstDetected lastUpdated contentCount = 0) ∧
    (firstDetected < lastUpdated →
      calculateGrowthRate firstDetected lastUpdated contentCount =
        contentCount / (((lastUpdated - firstDetected : ℤ) : ℚ) / (1000 * 60 * 60))) := by
  constructor
  · intro h
    subst h
    simp [calculateGrowthRate]
  · intro h
    have hpos : (0 : ℚ) < ((lastUpdated - firstDetected : ℤ) : ℚ) / (1000 * 60 * 60) := by
      apply div_pos
      · exact_mod_cast Int.sub_pos.mpr h
      · norm_num
    simp only [calculateGrowthRate]
    rw [if_neg (not_le.mpr hpos)]

/-- C7 witness: spec scenario of 12 items — zero span gives 0; a 3-hour
span gives 12 / 3 = 4 items per hour. -/
theorem calculateGrowthRate_spec_witness :
    ((0 : ℤ) = 0 ∧ calculateGrowthRate 0 0 12 = 0) ∧
    ((0 : ℤ) < 10800000 ∧
      calculateGrowthRate 0 10800000 12 =
        12 / (((10800000 - 0 : ℤ) : ℚ) / (1000 * 60 * 60))) :=
  ⟨⟨rfl, (calculateGrowthRate_spec 0 0 12).1 rfl⟩,
   ⟨by decide, (calculateGrowthRate_spec 0 10800000 12).2 (by decide)⟩⟩

/-- C10: on content whose engagement record has no `views` field, the
virality check is total and holds exactly when likes+shares+comments
exceed 1000 or shares alone exceed 100; the absent `views` clause is
falsy and never fires. -/
theorem checkViralityIndicators_no_views (content : ContentItem)
    (hviews : content.engagement.views = none) :
    checkViralityIndicators content = true ↔
      (1000 < content.engagement.likes + content.engagement.shares +
          content.engagement.comments ∨
       100 < content.engagement.shares) := by
  simp [checkViralityIndicators, hviews]

/-- Content with no views, 150 shares (spec scenario). -/
def demoViralContent : ContentItem :=
  { platform := "tiktok"
    engagement := { likes := 10, shares := 150, comments := 5, views := none } }

/-- C10 witness: the virality characterisation applied to viewless
content with 150 shares. -/
theorem checkViralityIndicators_no_views_witness :
    demoViralContent.engagement.views = none ∧
    (checkViralityIndicators demoViralContent = true ↔
      (1000 < demoViralContent.engagement.likes + demoViralContent.engagement.shares +
          demoViralContent.engagement.comments ∨
       100 < demoViralContent.engagement.shares)) :=
  ⟨rfl, checkViralityIndicators_no_views demoViralContent rfl⟩

/-- The rule filter as the claim words it: every specified bound holds,
including a specified min or max equal to 0 (no truthiness skip); the
remaining conditions are as in the code. -/
def ruleMatchesClaim (detectionResult : DetectionResult) (content : ContentItem)
    (rule : EscalationRule) : Bool :=
  rule.enabled &&
  (match rule.conditions.harmfulnessScore with
   | none => true
   | some hs =>
     (match hs.min with
      | none => true
      | some m => decide (m ≤ detectionResult.harmfulnessScore)) &&
     (match hs.max with
      | none => true
      | some m => decide (detectionResult.harmfulnessScore ≤ m))) &&
  (match rule.conditions.confidence with
   | none => true
   | some c =>
     match c.min with
     | none => true
     | some m => decide (m ≤ detectionResult.confidence)) &&
  (match rule.conditions.categories with
   | none => true
   | some cats =>
     if cats.length > 0 then
       cats.any (fun cat => detectionResult.categories.contains cat)
     else true) &&
  (match rule.conditions.platforms with
   | none => true
   | some ps =>
     if ps.length > 0 then ps.contains content.platform else true) &&
  (match rule.conditions.viralityIndicators with
   | none => true
   | some vi => if vi then checkViralityIndicators content else true)

/-- The rule filter as the code actually behaves (amended claim): a
specified numeric bound equal to 0 is ignored — treated as unspecified —
because the code guards each bound with JS truthiness. -/
def ruleMatchesAmended (detectionResult : DetectionResult) (content : ContentItem)
    (rule : EscalationRule) : Bool :=
  rule.enabled &&
  (match rule.conditions.harmfulnessScore with
   | none => true
   | some hs =>
     (match hs.min with
      | none => true
      | some m => decide (m = 0) || decide (m ≤ detectionResult.harmfulnessScore)) &&
     (match hs.max with
      | none => true
      | some m => decide (m = 0) || decide (detectionResult.harmfulnessScore ≤ m))) &&
  (match rule.conditions.confidence with
   | none => true
   | some c =>
     match c.min with
     | none => true
     | some m => decide (m = 0) || decide (m ≤ detectionResult.confidence)) &&
  (match rule.conditions.categories with
   | none => true
   | some cats =>
     if cats.length > 0 then
       cats.any (fun cat => detectionResult.categories.contains cat)
     else true) &&
  (match rule.conditions.platforms with
   | none => true
   | some ps =>
     if ps.length > 0 then ps.contains content.platform else true) &&
  (match rule.conditions.viralityIndicators with
   | none => true
   | some vi => if vi then checkViralityIndicators content else true)

/-- A truthiness-guarded lower bound is the bound-or-zero disjunction. -/
theorem lowerBoundCheck_eq (m x : ℚ) :
    (!(numTruthy m && decide (x < m))) = (decide (m = 0) || decide (m ≤ x)) := by
  by_cases hm : m = 0
  · simp [numTruthy, hm]
  · by_cases hx : x < m
    · simp [numTruthy, hm, hx, not_le.mpr hx]
    · simp [numTruthy, hm, hx, not_lt.mp hx]

/-- A truthiness-guarded upper bound is the bound-or-zero disjunction. -/
theorem upperBoundCheck_eq (m x : ℚ) :
    (!(numTruthy m && decide (x > m))) = (decide (m = 0) || decide (x ≤ m)) := by
  by_cases hm : m = 0
  · simp [numTruthy, hm]
  · by_cases hx : m < x
    · simp [numTruthy, hm, hx, not_le.mpr hx]
    · simp [numTruthy, hm, hx, not_lt.mp hx]

/-- The code's rule filter is exactly the amended predicate. -/
theorem ruleMatches_eq_amended (d : DetectionResult) (content : ContentItem)
    (rule : EscalationRule) :
    ruleMatches d content rule = ruleMatchesAmended d content rule := by
  obtain ⟨i, n, ⟨hs, cats, plats, conf, vir⟩, acts, prio, en⟩ := rule
  simp only [ruleMatches, ruleMatchesAmended]
  rcases hs with _ | ⟨mn, mx⟩ <;>
    rcases conf with _ | ⟨cm⟩ <;>
    (try rcases mn with _ | mn) <;>
    (try rcases mx with _ | mx) <;>
    (try rcases cm with _ | cm) <;>
    simp only [lowerBoundCheck_eq, upperBoundCheck_eq]

/-- A rule whose only condition is a harmfulness max bound of 0. -/
def zeroMaxRule : EscalationRule :=
  { id := "zero_max", name := "Zero max bound"
    conditions :=
      { harmfulnessScore := some { min := none, max := some 0 }
        categories := none, platforms := none, confidence := none
        viralityIndicators := none }
    actions := [], priority := 10, enabled := true }

/-- Content seen on TikTok with no engagement. -/
def demoContent : ContentItem :=
  { platform := "tiktok"
    engagement := { likes := 0, shares := 0, comments := 0, views := none } }

/-- A maximally harmful detection (score 1, full confidence). -/
def fullScoreDetection : DetectionResult :=
  { harmfulnessScore := 1, categories := ["violence"], confidence := 1
    reasoning := "maximal", flagged := true }

/-- C5 counterexample: a rule specifying `max = 0` is selected by the code
for a detection with score 1, although the claim's reading (score within
the specified min/max range, including bounds equal to 0) rejects it. -/
theorem findApplicableRules_zero_bound_counterexample :
    zeroMaxRule ∈ findApplicableRules fullScoreDetection demoContent [zeroMaxRule] ∧
    ruleMatchesClaim fullScoreDetection demoContent zeroMaxRule = false := by decide

/-- C5 (amended): a rule is selected exactly when it is enabled and every
specified condition holds, except that a specified score min, score max,
or confidence floor equal to 0 is ignored (vacuously true) due to the
code's truthiness guards. -/
theorem findApplicableRules_membership (d : DetectionResult) (content : ContentItem)
    (rules : List EscalationRule) (r : EscalationRule) :
    r ∈ findApplicableRules d content rules ↔
      r ∈ rules ∧ ruleMatchesAmended d content r = true := by
  unfold findApplicableRules
  rw [List.mem_insertionSort, List.mem_filter, ruleMatches_eq_amended]

/-- A cross-platform group: violent challenge content. -/
def crossGroupChallenge : CrossPlatformGroup :=
  { categories := ["violence"], hashtags := ["#challenge"]
    platforms := ["tiktok", "youtube"], count := 25
    avgHarmfulnessScore := 0.8, totalEngagement := 5000
    firstSeen := 0, lastSeen := 3600000 }

/-- A different cross-platform group that sorts ahead of the first (higher
count), present only in the second cycle. -/
def crossGroupOther : CrossPlatformGroup :=
  { categories := ["hate_speech"], hashtags := ["#other"]
    platforms := ["tiktok", "instagram"], count := 40
    avgHarmfulnessScore := 0.9, totalEngagement := 8000
    firstSeen := 0, lastSeen := 7200000 }

/-- C3 counterexample: the same cross-platform signal set
(hashtags `#challenge`, categories `violence`) receives id
`crossplatform_0` in a cycle where its group is first, and
`crossplatform_1` in a cycle where another group sorts ahead of it — the
trend id depends on the group's position, not only on its signals. -/
theorem crossPlatform_trendId_counterexample :
    ((detectCrossPlatformTrends [crossGroupChallenge]).map
        (fun t => (t.hashtags, t.keywords, t.categories, t.id)) =
      [(["#challenge"], [], ["violence"], "crossplatform_0")]) ∧
    ((detectCrossPlatformTrends [crossGroupOther, crossGroupChallenge]).map
        (fun t => (t.hashtags, t.keywords, t.categories, t.id)) =
      [(["#other"], ([] : List String), ["hate_speech"], "crossplatform_0"),
       (["#challenge"], [], ["violence"], "crossplatform_1")]) ∧
    ("crossplatform_0" : String) ≠ "crossplatform_1" :=
  ⟨rfl, rfl, by decide⟩

/-- The ids produced by `mapIdxFrom` follow the index sequence whenever
the mapped function's id field is a function of the index alone. -/
theorem mapIdxFrom_map_id (f : ℕ → CrossPlatformGroup → TrendData)
    (g : ℕ → String) (hf : ∀ i r, (f i r).id = g i) :
    ∀ (results : List CrossPlatformGroup) (n : ℕ),
      (mapIdxFrom f n results).map (·.id) = (List.range' n results.length).map g := by
  intro results
  induction results with
  | nil => intro n; rfl
  | cons r t ih =>
    intro n
    have hr : List.range' n (t.length + 1) = n :: List.range' (n + 1) t.length := rfl
    simp only [mapIdxFrom, List.map_cons, List.length_cons, hr]
    rw [hf, ih]

/-- C3 (amended): hashtag and keyword trends carry ids derived from their
signal alone (`hashtag_<tag>` / `keyword_<word>`), so equal signals yield
equal ids there; but cross-platform trends are assigned
`crossplatform_<index>` from their position in that cycle's result list,
so the same signal set can receive different ids across cycles. -/
theorem trendId_signal_or_position :
    (∀ results : List HashtagGroup,
      (detectTrendingHashtags results).map (·.id) =
        results.map (fun r => "hashtag_" ++ r.tag)) ∧
    (∀ results : List KeywordGroup,
      (detectTrendingKeywords results).map (·.id) =
        results.map (fun r => "keyword_" ++ r.word)) ∧
    (∀ results : List CrossPlatformGroup,
      (detectCrossPlatformTrends results).map (·.id) =
        (List.range results.length).map (fun i => "crossplatform_" ++ toString i)) := by
  refine ⟨?_, ?_, ?_⟩
  · intro results
    unfold detectTrendingHashtags
    rw [List.map_map]
    rfl
  · intro results
    unfold detectTrendingKeywords
    rw [List.map_map]
    rfl
  · intro results
    unfold detectCrossPlatformTrends
    rw [mapIdxFrom_map_id _ (fun i => "crossplatform_" ++ toString i)
      (fun i r => rfl) results 0]
    rw [List.range_eq_range']

/-- A consolidated trend of high risk (as the aggregation cycle would
promote). -/
def demoHighTrend : TrendData :=
  { id := "hashtag_#challenge", hashtags := ["#challenge"], keywords := []
    platforms := ["tiktok", "youtube"], harmfulnessScore := 0.9
    viralityScore := 0.6, growthRate := 4, firstDetected := 0
    lastUpdated := 10800000, contentCount := 12, averageEngagement := 700
    categories := ["violence"], riskLevel := .high }

/-- A consolidated trend of low risk (stored but never promoted). -/
def demoLowTrend : TrendData :=
  { id := "keyword_prank", hashtags := [], keywords := ["prank"]
    platforms := ["youtube"], harmfulnessScore := 0.2
    viralityScore := 0.1, growthRate := 1, firstDetected := 0
    lastUpdated := 3600000, contentCount := 3, averageEngagement := 50
    categories := ["spam"], riskLevel := .low }

/-- Recognises the stored-warning effect. -/
def isWarningStore : RedisEffect → Bool
  | .setExWarning _ _ _ => true
  | _ => false

/-- Recognises an `lPush` onto the given list key. -/
def isLPushToKey (k : String) : RedisEffect → Bool
  | .lPush key _ => decide (key = k)
  | _ => false

/-- C8: evaluating one aggregation cycle over a high-risk and a low-risk
trend: exactly one early warning is created (for the high-risk trend
only), with the 7-day TTL, and its id is pushed onto the severity-agnostic
`warnings:active` list — but no push onto the severity-specific
`warnings:high` list ever happens, although the alerts API route reads
exactly those severity-keyed lists. -/
theorem earlyWarning_severity_list_eval :
    ((analyzeTrendsCycleEffects 1700000000000 [demoHighTrend, demoLowTrend]).filter
        isWarningStore).length = 1 ∧
    ((analyzeTrendsCycleEffects 1700000000000 [demoHighTrend, demoLowTrend]).filter
        (isLPushToKey "warnings:active")).length = 1 ∧
    ((analyzeTrendsCycleEffects 1700000000000 [demoHighTrend, demoLowTrend]).filter
        (isLPushToKey ("warnings:" ++ riskLevelKeyString demoHighTrend.riskLevel))).length = 0 ∧
    (analyzeTrendsCycleEffects 1700000000000 [demoHighTrend, demoLowTrend]).all
      (fun e => match e with
        | .setExWarning _ ttl _ => decide (ttl = 7 * 24 * 60 * 60)
        | _ => true) = true := by decide

/-- The default rules, sorted by descending priority. -/
def demoSortedRules : List EscalationRule :=
  List.insertionSort ruleGE getDefaultEscalationRules

/-- C4 witness: the consolidation theorem applied to the sorted default
rule set. -/
theorem consolidateActions_highest_priority_sorted_witness :
    List.Sorted ruleGE demoSortedRules ∧
    (HighestPriorityWins demoSortedRules ∧ AllPairsRepresented demoSortedRules ∧
     ((consolidateActions demoSortedRules).map actionKey).Nodup ∧
     List.Sorted actionGE (consolidateActions demoSortedRules) ∧
     (∀ a : ResponseAction,
       getActionPriority a = typePriorityOf a.type * severityPriorityOf a.severity) ∧
     (typePriorityOf .remove > typePriorityOf .quarantine ∧
      typePriorityOf .quarantine > typePriorityOf .escalate ∧
      typePriorityOf .escalate > typePriorityOf .flag ∧
      typePriorityOf .flag > typePriorityOf .warn ∧
      typePriorityOf .warn = typePriorityOf .notify)) :=
  ⟨List.sorted_insertionSort ruleGE getDefaultEscalationRules,
   consolidateActions_highest_priority_sorted demoSortedRules
     (List.sorted_insertionSort ruleGE getDefaultEscalationRules)⟩
